import Mathlib

/-!
Verification of the Kazo Design MCP repository: a shallow embedding of the
sketch-request rendezvous (vscode-extension/src/mcpTools.ts), the design
document/element model (KazoDesign.Editor/Models), and the editor service
operations (KazoDesign.Editor/Services/DesignService.cs, view-aware version),
together with proofs of the specification's claims about them.
-/

/-! ## Sketch request rendezvous (mcpTools.ts, SketchRequestManager)

The TypeScript manager holds at most one pending request, each carrying the
promise callbacks of the awaiting `requestSketch` caller.  The embedding gives
every request a fresh numeric promise identifier and makes each operation
return, next to the new manager state, the list of promise settlements it
performed.  A promise is pending exactly when no operation has emitted a
settlement for its identifier. -/

/-- interface SketchResult of mcpTools.ts: `success` is required, the rest
optional. -/
structure SketchResult where
  success : Bool
  title : Option String := none
  svg : Option String := none
  json : Option String := none
  prompt : Option String := none
  error : Option String := none
deriving DecidableEq, Repr

/-- A settlement of a sketch promise: `resolve(result)` or `reject(new Error(msg))`. -/
inductive Settlement where
  | resolved (r : SketchResult)
  | rejected (msg : String)
deriving DecidableEq, Repr

/-- State of `SketchRequestManager`: the single pending slot (promise id,
title, prompt) and a counter supplying fresh promise identifiers. -/
structure ManagerState where
  pending : Option (Nat × String × String)
  nextId : Nat
deriving DecidableEq, Repr

/-- The manager before any request: `pendingRequest = null`. -/
def ManagerState.initial : ManagerState := { pending := none, nextId := 0 }

/-- `requestSketch(title, prompt)`: if a request is pending, reject it with
`new Error('New sketch request started')` and drop it; then install a new
pending request whose promise is fresh.  Returns the new state and the
settlements performed. -/
def requestSketch (title prompt : String) (s : ManagerState) :
    ManagerState × List (Nat × Settlement) :=
  match s.pending with
  | some (id, _, _) =>
      ({ pending := some (s.nextId, title, prompt), nextId := s.nextId + 1 },
       [(id, Settlement.rejected "New sketch request started")])
  | none =>
      ({ pending := some (s.nextId, title, prompt), nextId := s.nextId + 1 }, [])

/-- `completeSketch(result)`: if a request is pending, resolve its promise
with `result` and clear the slot; otherwise do nothing. -/
def completeSketch (result : SketchResult) (s : ManagerState) :
    ManagerState × List (Nat × Settlement) :=
  match s.pending with
  | some (id, _, _) => ({ s with pending := none }, [(id, Settlement.resolved result)])
  | none => (s, [])

/-- `cancelSketch()`: if a request is pending, resolve (not reject) its
promise with `success:false` and the cancellation message, then clear the
slot; otherwise do nothing. -/
def cancelSketch (s : ManagerState) : ManagerState × List (Nat × Settlement) :=
  match s.pending with
  | some (id, _, _) =>
      ({ s with pending := none },
       [(id, Settlement.resolved
          { success := false, error := some "User cancelled the sketch" })])
  | none => (s, [])

/-- `hasPendingRequest()`. -/
def hasPendingRequest (s : ManagerState) : Bool := s.pending.isSome

/-- `getPendingRequest()`: title and prompt of the pending request, if any. -/
def getPendingRequest (s : ManagerState) : Option (String × String) :=
  s.pending.map (fun p => (p.2.1, p.2.2))

/-- Claim C1: issuing `requestSketch("A","p1")` and then `requestSketch("B","p2")`
before the first settles rejects the first promise (id 0) with the
supersession error, emits no settlement for the second promise (id 1) — so it
is still pending — and the second promise is settled exactly by a subsequent
`completeSketch` or `cancelSketch`. -/
theorem sketch_supersession_rejects_first_second_pending :
    (requestSketch "A" "p1" ManagerState.initial).2 = [] ∧
    (requestSketch "B" "p2" (requestSketch "A" "p1" ManagerState.initial).1).2 =
      [(0, Settlement.rejected "New sketch request started")] ∧
    ((requestSketch "A" "p1" ManagerState.initial).2 ++
      (requestSketch "B" "p2" (requestSketch "A" "p1" ManagerState.initial).1).2).all
      (fun e => e.1 != 1) = true ∧
    (requestSketch "B" "p2" (requestSketch "A" "p1" ManagerState.initial).1).1.pending =
      some (1, "B", "p2") ∧
    hasPendingRequest
      (requestSketch "B" "p2" (requestSketch "A" "p1" ManagerState.initial).1).1 = true ∧
    (∀ result : SketchResult,
      (completeSketch result
        (requestSketch "B" "p2" (requestSketch "A" "p1" ManagerState.initial).1).1).2 =
        [(1, Settlement.resolved result)]) ∧
    (cancelSketch
      (requestSketch "B" "p2" (requestSketch "A" "p1" ManagerState.initial).1).1).2 =
      [(1, Settlement.resolved
        { success := false, error := some "User cancelled the sketch" })] := by
  refine ⟨rfl, rfl, rfl, rfl, rfl, ?_, rfl⟩
  intro result
  rfl

/-- Claim C6: with a request pending, `cancelSketch` resolves (never rejects)
that request's promise with `success := false` and a human-readable
cancellation reason, and clears the slot. -/
theorem cancelSketch_resolves_pending_with_failure
    (s : ManagerState) (id : Nat) (t p : String)
    (h : s.pending = some (id, t, p)) :
    cancelSketch s =
      ({ s with pending := none },
       [(id, Settlement.resolved
          { success := false, error := some "User cancelled the sketch" })]) := by
  simp [cancelSketch, h]

/-- Witness for claim C6 at a concrete pending state. -/
theorem cancelSketch_resolves_pending_with_failure_witness :
    cancelSketch { pending := some (7, "T", "P"), nextId := 8 } =
      ({ pending := none, nextId := 8 },
       [(7, Settlement.resolved
          { success := false, error := some "User cancelled the sketch" })]) :=
  cancelSketch_resolves_pending_with_failure
    { pending := some (7, "T", "P"), nextId := 8 } 7 "T" "P" rfl

/-- Claim C9: with no request pending, `completeSketch` and `cancelSketch`
are total no-ops: they settle no promise, leave the state unchanged, and
`hasPendingRequest` stays false. -/
theorem complete_cancel_noop_when_no_pending
    (s : ManagerState) (result : SketchResult) (h : s.pending = none) :
    completeSketch result s = (s, []) ∧
    cancelSketch s = (s, []) ∧
    hasPendingRequest (completeSketch result s).1 = false ∧
    hasPendingRequest (cancelSketch s).1 = false := by
  refine ⟨?_, ?_, ?_, ?_⟩ <;> simp [completeSketch, cancelSketch, hasPendingRequest, h]

/-- Witness for claim C9 at the initial state. -/
theorem complete_cancel_noop_when_no_pending_witness :
    completeSketch { success := true } ManagerState.initial = (ManagerState.initial, []) ∧
    cancelSketch ManagerState.initial = (ManagerState.initial, []) ∧
    hasPendingRequest (completeSketch { success := true } ManagerState.initial).1 = false ∧
    hasPendingRequest (cancelSketch ManagerState.initial).1 = false :=
  complete_cancel_noop_when_no_pending ManagerState.initial { success := true } rfl

/-! ## Element model (KazoDesign.Editor/Models)

The current revision of `DesignElement.cs` (the one carrying `Meaning` and
`Parent`, shipped with the view-aware `DesignService`) is embedded.  C#
doubles are modelled as rationals; `DateTime` values are modelled as opaque
strings. -/

/-- enum ElementMeaning of DesignElement.cs. -/
inductive ElementMeaning where
  | none
  | control
  | navBar
  | toolbar
  | body
  | panel
  | footer
  | view
  | imagePlaceholder
deriving DecidableEq, Repr

/-- enum TextType of KText.cs. -/
inductive TextType where
  | paragraph
  | h1
  | h2
  | h3
  | h4
  | h5
  | link
deriving DecidableEq, Repr

/-- Fields of the abstract base class DesignElement.  `backgroundColor`,
`borderColor` and `isSelected` carry `[JsonIgnore]` in the source (display
only / transient). -/
structure ElementBase where
  id : String
  x : ℚ := 0
  y : ℚ := 0
  rotation : ℚ := 0
  name : Option String := Option.none
  description : Option String := Option.none
  backgroundColor : Option String := Option.none
  borderColor : Option String := Option.none
  meaning : Option ElementMeaning := Option.none
  parent : Option String := Option.none
  isSelected : Bool := false
deriving DecidableEq, Repr

/-- Variant fields of KRectangle.cs. -/
structure RectFields where
  width : ℚ := 100
  height : ℚ := 60
  fill : String := "#4a90d9"
  stroke : String := "#2d5a87"
  strokeWidth : ℚ := 2
  cornerRadius : ℚ := 0
deriving DecidableEq, Repr

/-- Variant fields of KCircle.cs. -/
structure CircleFields where
  radius : ℚ := 50
  fill : String := "#5cb85c"
  stroke : String := "#3d8b3d"
  strokeWidth : ℚ := 2
deriving DecidableEq, Repr

/-- Variant fields of KLine.cs. -/
structure LineFields where
  x2 : ℚ := 100
  y2 : ℚ := 100
  stroke : String := "#f0ad4e"
  strokeWidth : ℚ := 3
  strokeDashArray : Option String := Option.none
deriving DecidableEq, Repr

/-- Variant fields of KText.cs (revision with TextType and LinkUrl). -/
structure TextFields where
  content : String := "Text"
  fontSize : ℚ := 16
  fontFamily : String := "Arial, sans-serif"
  fill : String := "#e0e0e0"
  fontWeight : String := "normal"
  textType : TextType := TextType.paragraph
  linkUrl : Option String := Option.none
deriving DecidableEq, Repr

/-- Variant fields of KImage.cs. -/
structure ImageFields where
  source : String := ""
  width : ℚ := 100
  height : ℚ := 100
  originalWidth : ℚ := 0
  originalHeight : ℚ := 0
  preserveAspectRatio : Bool := true
deriving DecidableEq, Repr

/-- The closed set of DesignElement subclasses. -/
inductive ElementShape where
  | rect (f : RectFields)
  | circle (f : CircleFields)
  | line (f : LineFields)
  | text (f : TextFields)
  | image (f : ImageFields)
deriving DecidableEq, Repr

/-- A concrete design element: base-class fields plus variant fields. -/
structure DesignElement where
  base : ElementBase
  shape : ElementShape
deriving DecidableEq, Repr

/-- char.IsWhiteSpace, restricted to the whitespace characters relevant
here. -/
def isWhiteChar (c : Char) : Bool :=
  c == ' ' || c == '\t' || c == '\n' || c == '\r' || c == '\x0b' || c == '\x0c'

/-- string.IsNullOrWhiteSpace on a nullable string. -/
def strIsNullOrWhiteSpace (o : Option String) : Bool :=
  match o with
  | Option.none => true
  | Option.some s => s.all isWhiteChar

/-- KText.DisplayText: the Name if it is non-whitespace, otherwise the
Content. -/
def displayText (b : ElementBase) (f : TextFields) : String :=
  if strIsNullOrWhiteSpace b.name then f.content else b.name.getD f.content

/-- KText.ComputedFontSize. -/
def computedFontSize (f : TextFields) : ℚ :=
  match f.textType with
  | TextType.h1 => 32
  | TextType.h2 => 28
  | TextType.h3 => 24
  | TextType.h4 => 20
  | TextType.h5 => 18
  | TextType.link => f.fontSize
  | TextType.paragraph => f.fontSize

/-- GetCenterX of each variant. -/
def centerX (e : DesignElement) : ℚ :=
  match e.shape with
  | ElementShape.rect f => e.base.x + f.width / 2
  | ElementShape.circle _ => e.base.x
  | ElementShape.line f => (e.base.x + f.x2) / 2
  | ElementShape.text f =>
      e.base.x + ((displayText e.base f).length : ℚ) * computedFontSize f * (3 / 10)
  | ElementShape.image f => e.base.x + f.width / 2

/-- GetCenterY of each variant. -/
def centerY (e : DesignElement) : ℚ :=
  match e.shape with
  | ElementShape.rect f => e.base.y + f.height / 2
  | ElementShape.circle _ => e.base.y
  | ElementShape.line f => (e.base.y + f.y2) / 2
  | ElementShape.text f => e.base.y - computedFontSize f * (6 / 10)
  | ElementShape.image f => e.base.y + f.height / 2

/-! ## Document model (DesignDocument.cs) -/

/-- DesignDocument.  The `description` and `aiContext` fields are referenced
by `DesignService.ExportDesignSync` but the revision of `DesignDocument.cs`
declaring them is absent from the sources.  Modelled from the spec: the
document JSON schema lists `description?` and `aiContext?` next to `title`,
`canvasWidth`, `canvasHeight`, `backgroundColor`, `elements[]`, `prompt?`,
`createdAt`, `modifiedAt`. -/
structure DesignDocument where
  title : String := "Untitled Design"
  description : Option String := Option.none
  canvasWidth : ℚ := 800
  canvasHeight : ℚ := 600
  backgroundColor : String := "#1e1e1e"
  elements : List DesignElement := []
  prompt : Option String := Option.none
  aiContext : Option String := Option.none
  createdAt : String := ""
  modifiedAt : String := ""
deriving DecidableEq, Repr

/-! ## Editor service state and mutations (DesignService.cs, view-aware
revision)

The selected element is a reference in C#; here it is the index of that
element in the document's element list, with the element's `isSelected`
flag maintained inside the list. -/

/-- Mutable state of DesignService relevant to the claims: the document, the
selected element, the current view context and the breadcrumb. -/
structure ServiceState where
  document : DesignDocument
  selectedIdx : Option Nat := Option.none
  currentViewContext : Option String := Option.none
  viewBreadcrumb : List String := []
deriving DecidableEq, Repr

/-- Clear the `isSelected` flag of the element at index `i`. -/
def deselectAt : List DesignElement → Nat → List DesignElement
  | [], _ => []
  | e :: es, 0 => ({ e with base := { e.base with isSelected := false } }) :: es
  | e :: es, Nat.succ n => e :: deselectAt es n

/-- SelectElement(null): clear the flag of the previously selected element
and forget the selection. -/
def selectNone (s : ServiceState) : ServiceState :=
  match s.selectedIdx with
  | Option.none => s
  | Option.some i =>
      { s with
        document := { s.document with elements := deselectAt s.document.elements i },
        selectedIdx := Option.none }

/-- ClearCanvas: remove exactly the elements whose Parent equals the current
view context, deselect, and bump ModifiedAt.  The C# code removes the
matching element objects and afterwards calls SelectElement(null), which
clears the IsSelected flag on the aliased SelectedElement object; on this
list representation the deselection is applied first, which agrees because
the removal neither inspects nor alters the isSelected field. -/
def clearCanvas (now : String) (s : ServiceState) : ServiceState :=
  let s1 := selectNone s
  let remaining :=
    s1.document.elements.filter (fun e => !(e.base.parent == s.currentViewContext))
  { s1 with document := { s1.document with elements := remaining, modifiedAt := now } }

/-- GetCurrentViewElements: the elements whose Parent equals the current view
context. -/
def getCurrentViewElements (s : ServiceState) : List DesignElement :=
  s.document.elements.filter (fun e => e.base.parent == s.currentViewContext)

/-- EnterView: no-op unless a View element with the given name exists;
otherwise push the current context (if non-null) onto the breadcrumb, enter
the view, deselect, and bump ModifiedAt. -/
def enterView (viewName : String) (now : String) (s : ServiceState) : ServiceState :=
  match s.document.elements.find?
      (fun e => e.base.name == Option.some viewName &&
                e.base.meaning == Option.some ElementMeaning.view) with
  | Option.none => s
  | Option.some _ =>
      let s1 := { s with
        viewBreadcrumb := s.viewBreadcrumb ++
          (match s.currentViewContext with
           | Option.some c => [c]
           | Option.none => []),
        currentViewContext := Option.some viewName }
      let s2 := selectNone s1
      { s2 with document := { s2.document with modifiedAt := now } }

/-- ExitToParentView: pop the breadcrumb into the context (or go to root),
deselect, bump ModifiedAt. -/
def exitToParentView (now : String) (s : ServiceState) : ServiceState :=
  let s1 :=
    match s.viewBreadcrumb.getLast? with
    | Option.some c =>
        { s with currentViewContext := Option.some c,
                 viewBreadcrumb := s.viewBreadcrumb.dropLast }
    | Option.none => { s with currentViewContext := Option.none }
  let s2 := selectNone s1
  { s2 with document := { s2.document with modifiedAt := now } }

/-- ExitToRoot: clear context and breadcrumb, deselect, bump ModifiedAt. -/
def exitToRoot (now : String) (s : ServiceState) : ServiceState :=
  let s1 := { s with currentViewContext := Option.none, viewBreadcrumb := [] }
  let s2 := selectNone s1
  { s2 with document := { s2.document with modifiedAt := now } }

/-- SetMcpContext(title, prompt): overwrite Title when the argument is
non-null and not whitespace-only, likewise Prompt, then bump ModifiedAt. -/
def setMcpContext (title prompt : Option String) (now : String) (s : ServiceState) :
    ServiceState :=
  let d := s.document
  let d := if strIsNullOrWhiteSpace title then d else { d with title := title.getD d.title }
  let d := if strIsNullOrWhiteSpace prompt then d else { d with prompt := prompt }
  { s with document := { d with modifiedAt := now } }

/-- An element with its transient `isSelected` flag cleared; used to compare
element collections up to selection state. -/
def clearSel (e : DesignElement) : DesignElement :=
  { e with base := { e.base with isSelected := false } }

theorem deselectAt_map_clearSel (es : List DesignElement) (i : Nat) :
    (deselectAt es i).map clearSel = es.map clearSel := by
  induction es generalizing i with
  | nil => rfl
  | cons e es ih =>
    cases i with
    | zero => simp [deselectAt, clearSel]
    | succ n => simp [deselectAt, ih]

theorem selectNone_elements_map_clearSel (s : ServiceState) :
    (selectNone s).document.elements.map clearSel = s.document.elements.map clearSel := by
  cases h : s.selectedIdx <;> simp [selectNone, h, deselectAt_map_clearSel]

theorem deselectAt_filter_parent (es : List DesignElement) (i : Nat)
    (ctx : Option String) :
    ((deselectAt es i).filter (fun e => !(e.base.parent == ctx))).map clearSel =
      (es.filter (fun e => !(e.base.parent == ctx))).map clearSel := by
  induction es generalizing i with
  | nil => rfl
  | cons e es ih =>
    cases i with
    | zero =>
      by_cases hp : (e.base.parent == ctx) = true <;>
        simp [deselectAt, List.filter, hp, clearSel]
    | succ n =>
      by_cases hp : (e.base.parent == ctx) = true <;>
        simp [deselectAt, List.filter, hp, ih]

/-- Claim C3: `clearCanvas` removes exactly the elements whose `parent`
equals the current view context (comparing element lists up to the transient
selection flag, which deselection may clear on a surviving element): the
remaining elements are precisely the original elements whose `parent`
differs from the active context, in order.  In particular a root-level clear
(`currentViewContext = none`) keeps every element whose `parent` is a
non-null view name, and inside a view only that view's direct children are
removed. -/
theorem clearCanvas_removes_exactly_current_context (now : String) (s : ServiceState) :
    (clearCanvas now s).document.elements.map clearSel =
      (s.document.elements.filter
        (fun e => !(e.base.parent == s.currentViewContext))).map clearSel ∧
    (clearCanvas now s).currentViewContext = s.currentViewContext := by
  constructor
  · cases h : s.selectedIdx with
    | none => simp [clearCanvas, selectNone, h]
    | some i => simp [clearCanvas, selectNone, h, deselectAt_filter_parent]
  · cases h : s.selectedIdx <;> simp [clearCanvas, selectNone, h]

/-- Claim C10: `setMcpContext` overwrites Title only for a non-null,
non-whitespace title argument and Prompt only for a non-null, non-whitespace
prompt argument, leaves a blank argument's field unchanged, sets ModifiedAt,
and changes no other document or service field (the record update on the
right-hand side is a complete frame description). -/
theorem setMcpContext_frame (title prompt : Option String) (now : String)
    (s : ServiceState) :
    setMcpContext title prompt now s =
      { s with document := { s.document with
          title := if strIsNullOrWhiteSpace title then s.document.title
                   else title.getD s.document.title,
          prompt := if strIsNullOrWhiteSpace prompt then s.document.prompt else prompt,
          modifiedAt := now } } := by
  unfold setMcpContext
  by_cases ht : strIsNullOrWhiteSpace title = true <;>
    by_cases hp : strIsNullOrWhiteSpace prompt = true <;>
      simp [ht, hp]

/-! ## SVG generation (DesignService.GenerateSvg and helpers)

C# renders doubles with string interpolation; `ratStr` stands in for that
numeric formatting on the rational embedding of doubles.  All claims proved
below are independent of the particular digits it produces. -/

/-- Decimal rendering of a rational, standing in for .NET double
formatting. -/
def ratStr (q : ℚ) : String :=
  if q.den = 1 then toString q.num else toString q.num ++ "/" ++ toString q.den

/-- string.IsNullOrEmpty on a nullable string. -/
def strIsNullOrEmpty (o : Option String) : Bool :=
  match o with
  | Option.none => true
  | Option.some s => s == ""

/-- DesignElement.GetTransform: empty for rotation 0, otherwise
`rotate(r cx cy)` about the element's computed center. -/
def getTransform (e : DesignElement) : String :=
  if e.base.rotation = 0 then ""
  else "rotate(" ++ ratStr e.base.rotation ++ " " ++ ratStr (centerX e) ++ " " ++
    ratStr (centerY e) ++ ")"

/-- The `transform="..."` attribute fragment each Generate*Svg method
prepends with a space when GetTransform is non-empty, and omits entirely
otherwise. -/
def transformAttr (e : DesignElement) : String :=
  if getTransform e = "" then "" else " transform=\"" ++ getTransform e ++ "\""

/-- System.Security.SecurityElement.Escape on one character. -/
def xmlEscapeChar (c : Char) : String :=
  if c = '<' then "&lt;"
  else if c = '>' then "&gt;"
  else if c = '&' then "&amp;"
  else if c = '\"' then "&quot;"
  else if c = '\'' then "&apos;"
  else String.singleton c

/-- System.Security.SecurityElement.Escape. -/
def xmlEscape (s : String) : String :=
  String.join (s.data.map xmlEscapeChar)

/-- GenerateRectSvg. -/
def generateRectSvg (b : ElementBase) (f : RectFields) : String :=
  "<rect id=\"" ++ b.id ++ "\" x=\"" ++ ratStr b.x ++ "\" y=\"" ++ ratStr b.y ++
    "\" width=\"" ++ ratStr f.width ++ "\" height=\"" ++ ratStr f.height ++ "\"" ++
    (if f.cornerRadius > 0 then
      " rx=\"" ++ ratStr f.cornerRadius ++ "\" ry=\"" ++ ratStr f.cornerRadius ++ "\""
     else "") ++
    " fill=\"" ++ f.fill ++ "\" stroke=\"" ++ f.stroke ++ "\" stroke-width=\"" ++
    ratStr f.strokeWidth ++ "\"" ++
    transformAttr { base := b, shape := ElementShape.rect f } ++ " />"

/-- GenerateCircleSvg. -/
def generateCircleSvg (b : ElementBase) (f : CircleFields) : String :=
  "<circle id=\"" ++ b.id ++ "\" cx=\"" ++ ratStr b.x ++ "\" cy=\"" ++ ratStr b.y ++
    "\" r=\"" ++ ratStr f.radius ++ "\" fill=\"" ++ f.fill ++ "\" stroke=\"" ++
    f.stroke ++ "\" stroke-width=\"" ++ ratStr f.strokeWidth ++ "\"" ++
    transformAttr { base := b, shape := ElementShape.circle f } ++ " />"

/-- GenerateLineSvg. -/
def generateLineSvg (b : ElementBase) (f : LineFields) : String :=
  "<line id=\"" ++ b.id ++ "\" x1=\"" ++ ratStr b.x ++ "\" y1=\"" ++ ratStr b.y ++
    "\" x2=\"" ++ ratStr f.x2 ++ "\" y2=\"" ++ ratStr f.y2 ++ "\" stroke=\"" ++
    f.stroke ++ "\" stroke-width=\"" ++ ratStr f.strokeWidth ++ "\"" ++
    (if strIsNullOrEmpty f.strokeDashArray then ""
     else " stroke-dasharray=\"" ++ f.strokeDashArray.getD "" ++ "\"") ++
    transformAttr { base := b, shape := ElementShape.line f } ++ " />"

/-- GenerateTextSvg (uses the raw FontSize/FontWeight and escapes the
Content). -/
def generateTextSvg (b : ElementBase) (f : TextFields) : String :=
  "<text id=\"" ++ b.id ++ "\" x=\"" ++ ratStr b.x ++ "\" y=\"" ++ ratStr b.y ++
    "\" font-size=\"" ++ ratStr f.fontSize ++ "\" font-family=\"" ++ f.fontFamily ++
    "\" font-weight=\"" ++ f.fontWeight ++ "\" fill=\"" ++ f.fill ++ "\"" ++
    transformAttr { base := b, shape := ElementShape.text f } ++ ">" ++
    xmlEscape f.content ++ "</text>"

/-- GenerateImageSvg. -/
def generateImageSvg (b : ElementBase) (f : ImageFields) : String :=
  "<image id=\"" ++ b.id ++ "\" x=\"" ++ ratStr b.x ++ "\" y=\"" ++ ratStr b.y ++
    "\" width=\"" ++ ratStr f.width ++ "\" height=\"" ++ ratStr f.height ++
    "\" href=\"" ++ f.source ++ "\"" ++
    (if f.preserveAspectRatio then " preserveAspectRatio=\"xMidYMid meet\"" else "") ++
    transformAttr { base := b, shape := ElementShape.image f } ++ " />"

/-- The per-element dispatch of GenerateSvg's switch expression. -/
def genElementSvg (e : DesignElement) : String :=
  match e with
  | { base := b, shape := ElementShape.rect f } => generateRectSvg b f
  | { base := b, shape := ElementShape.circle f } => generateCircleSvg b f
  | { base := b, shape := ElementShape.line f } => generateLineSvg b f
  | { base := b, shape := ElementShape.text f } => generateTextSvg b f
  | { base := b, shape := ElementShape.image f } => generateImageSvg b f

/-- The loop body of GenerateSvg: indent and append the element's markup as
its own line when it is non-empty. -/
def elementLine (e : DesignElement) : String :=
  let svg := genElementSvg e
  if svg = "" then "" else "  " ++ svg ++ "\n"

/-- GenerateSvg: root `<svg>` node, full-canvas background rect, then one
line per element whose generated markup is non-empty. -/
def generateSvg (doc : DesignDocument) : String :=
  "<svg xmlns=\"http://www.w3.org/2000/svg\" width=\"" ++ ratStr doc.canvasWidth ++
    "\" height=\"" ++ ratStr doc.canvasHeight ++ "\" viewBox=\"0 0 " ++
    ratStr doc.canvasWidth ++ " " ++ ratStr doc.canvasHeight ++ "\">\n" ++
  "  <rect width=\"100%\" height=\"100%\" fill=\"" ++ doc.backgroundColor ++ "\" />\n" ++
  String.join (doc.elements.map elementLine) ++
  "</svg>\n"

theorem rotate_prefix_ne_empty (s : String) : "rotate(" ++ s ≠ "" := by
  intro h
  have h2 := congrArg String.length h
  simp [String.length_append] at h2
  exact absurd h2.1 (by decide)

theorem transformAttr_eq_zero (e : DesignElement) (h : e.base.rotation = 0) :
    transformAttr e = "" := by
  simp [transformAttr, getTransform, h]

theorem transformAttr_eq_rotated (e : DesignElement) (h : ¬e.base.rotation = 0) :
    transformAttr e =
      " transform=\"rotate(" ++ ratStr e.base.rotation ++ " " ++ ratStr (centerX e) ++
        " " ++ ratStr (centerY e) ++ ")\"" := by
  have hg : getTransform e = "rotate(" ++ ratStr e.base.rotation ++ " " ++
      ratStr (centerX e) ++ " " ++ ratStr (centerY e) ++ ")" := by
    simp [getTransform, h]
  have hne : ¬getTransform e = "" := by
    rw [hg]
    simp only [String.append_assoc]
    exact rotate_prefix_ne_empty _
  rw [transformAttr, if_neg hne, hg]
  apply String.ext
  simp [String.data_append, List.append_assoc]

/-- Claim C4: an element with rotation 0 gets no transform fragment at all;
an element with nonzero rotation gets exactly
` transform="rotate(r cx cy)"` where `(cx, cy)` is the variant's computed
center — rectangle/image: `(x + width/2, y + height/2)`; circle: `(x, y)`;
line: the segment midpoint; text: the heuristic center. -/
theorem rotation_transform_exact (e : DesignElement) :
    (e.base.rotation = 0 → transformAttr e = "") ∧
    (e.base.rotation ≠ 0 →
      transformAttr e =
        " transform=\"rotate(" ++ ratStr e.base.rotation ++ " " ++
          ratStr (match e.shape with
            | ElementShape.rect f => e.base.x + f.width / 2
            | ElementShape.circle _ => e.base.x
            | ElementShape.line f => (e.base.x + f.x2) / 2
            | ElementShape.text f =>
                e.base.x + ((displayText e.base f).length : ℚ) *
                  computedFontSize f * (3 / 10)
            | ElementShape.image f => e.base.x + f.width / 2) ++ " " ++
          ratStr (match e.shape with
            | ElementShape.rect f => e.base.y + f.height / 2
            | ElementShape.circle _ => e.base.y
            | ElementShape.line f => (e.base.y + f.y2) / 2
            | ElementShape.text f => e.base.y - computedFontSize f * (6 / 10)
            | ElementShape.image f => e.base.y + f.height / 2) ++ ")\"") := by
  refine ⟨transformAttr_eq_zero e, fun h => ?_⟩
  have hx : (match e.shape with
      | ElementShape.rect f => e.base.x + f.width / 2
      | ElementShape.circle _ => e.base.x
      | ElementShape.line f => (e.base.x + f.x2) / 2
      | ElementShape.text f =>
          e.base.x + ((displayText e.base f).length : ℚ) * computedFontSize f * (3 / 10)
      | ElementShape.image f => e.base.x + f.width / 2) = centerX e := by
    cases e with
    | mk b sh => cases sh <;> rfl
  have hy : (match e.shape with
      | ElementShape.rect f => e.base.y + f.height / 2
      | ElementShape.circle _ => e.base.y
      | ElementShape.line f => (e.base.y + f.y2) / 2
      | ElementShape.text f => e.base.y - computedFontSize f * (6 / 10)
      | ElementShape.image f => e.base.y + f.height / 2) = centerY e := by
    cases e with
    | mk b sh => cases sh <;> rfl
  rw [hx, hy]
  exact transformAttr_eq_rotated e h

/-- Witness for claim C4: a rectangle with rotation 0 gets no transform, and
a circle at (300, 100) rotated by 90 degrees gets exactly
` transform="rotate(90 300 100)"`. -/
theorem rotation_transform_exact_witness :
    transformAttr { base := { id := "r" }, shape := ElementShape.rect {} } = "" ∧
    transformAttr
        { base := { id := "c", x := 300, y := 100, rotation := 90 },
          shape := ElementShape.circle {} } =
      " transform=\"rotate(90 300 100)\"" :=
  ⟨(rotation_transform_exact { base := { id := "r" }, shape := ElementShape.rect {} }).1
      rfl,
   ((rotation_transform_exact
        { base := { id := "c", x := 300, y := 100, rotation := 90 },
          shape := ElementShape.circle {} }).2 (by decide)).trans (by decide)⟩

/-- Number of occurrences of a character in a string. -/
def countChar (s : String) (c : Char) : Nat := s.data.count c

theorem countChar_append (a b : String) (c : Char) :
    countChar (a ++ b) c = countChar a c + countChar b c := by
  simp [countChar, String.data_append, List.count_append]

/-- Claim C7: on a document with no elements, GenerateSvg succeeds and
produces exactly the root node plus the full-canvas background rect filled
with the document's background color, and nothing else; provided the
background color and the rendered canvas dimensions contain no further `<`,
the output contains exactly three `<` — the `<svg>` open tag, the single
background `<rect>`, and the `</svg>` close tag — hence exactly one `<rect>`
and no shape element. -/
theorem generateSvg_empty_document (doc : DesignDocument)
    (h : doc.elements = [])
    (hbg : countChar doc.backgroundColor '<' = 0)
    (hw : countChar (ratStr doc.canvasWidth) '<' = 0)
    (hh : countChar (ratStr doc.canvasHeight) '<' = 0) :
    generateSvg doc =
      "<svg xmlns=\"http://www.w3.org/2000/svg\" width=\"" ++ ratStr doc.canvasWidth ++
        "\" height=\"" ++ ratStr doc.canvasHeight ++ "\" viewBox=\"0 0 " ++
        ratStr doc.canvasWidth ++ " " ++ ratStr doc.canvasHeight ++ "\">\n" ++
      "  <rect width=\"100%\" height=\"100%\" fill=\"" ++ doc.backgroundColor ++
        "\" />\n" ++ "</svg>\n" ∧
    countChar (generateSvg doc) '<' = 3 := by
  have hs : generateSvg doc =
      "<svg xmlns=\"http://www.w3.org/2000/svg\" width=\"" ++ ratStr doc.canvasWidth ++
        "\" height=\"" ++ ratStr doc.canvasHeight ++ "\" viewBox=\"0 0 " ++
        ratStr doc.canvasWidth ++ " " ++ ratStr doc.canvasHeight ++ "\">\n" ++
      "  <rect width=\"100%\" height=\"100%\" fill=\"" ++ doc.backgroundColor ++
        "\" />\n" ++ "</svg>\n" := by
    simp [generateSvg, h, String.join]
  refine ⟨hs, ?_⟩
  rw [hs]
  simp [countChar_append, hbg, hw, hh]
  decide

/-- Witness for claim C7 at the default empty document. -/
theorem generateSvg_empty_document_witness :
    generateSvg { elements := [] } =
      "<svg xmlns=\"http://www.w3.org/2000/svg\" width=\"" ++ ratStr (800 : ℚ) ++
        "\" height=\"" ++ ratStr (600 : ℚ) ++ "\" viewBox=\"0 0 " ++
        ratStr (800 : ℚ) ++ " " ++ ratStr (600 : ℚ) ++ "\">\n" ++
      "  <rect width=\"100%\" height=\"100%\" fill=\"" ++ "#1e1e1e" ++
        "\" />\n" ++ "</svg>\n" ∧
    countChar (generateSvg { elements := [] }) '<' = 3 :=
  generateSvg_empty_document { elements := [] } rfl (by decide) (by decide) (by decide)

/-! ## JSON serialization (System.Text.Json with the repository's options)

The serializer is configured with camelCase property names and, via the
`[JsonDerivedType]` attributes on DesignElement, a `$type` discriminator per
variant.  Properties marked `[JsonIgnore]` (`isSelected`, and the
display-only `backgroundColor`/`borderColor` of the element base class) are
neither written nor read.  JSON text is modelled as a value tree; an input
string that is not valid JSON at all is represented by the absence of such a
tree (`Option.none`), matching the exception the parser would raise. -/

/-- A JSON value. -/
inductive Json where
  | null
  | bool (b : Bool)
  | num (q : ℚ)
  | str (s : String)
  | arr (xs : List Json)
  | obj (fields : List (String × Json))

/-- Property lookup in a JSON object. -/
def lookupField : List (String × Json) → String → Option Json
  | [], _ => Option.none
  | (k, v) :: rest, key => if k = key then Option.some v else lookupField rest key

/-- Read a JSON string; anything else is a deserialization error. -/
def asStr : Json → Option String
  | Json.str s => Option.some s
  | _ => Option.none

/-- Read a JSON number; anything else (including null, which cannot convert
to a double) is a deserialization error. -/
def asNum : Json → Option ℚ
  | Json.num q => Option.some q
  | _ => Option.none

/-- Read a JSON boolean. -/
def asBool : Json → Option Bool
  | Json.bool b => Option.some b
  | _ => Option.none

/-- Serialize a nullable string (the options do not suppress nulls). -/
def encOptStr : Option String → Json
  | Option.none => Json.null
  | Option.some s => Json.str s

/-- Deserialize a nullable string. -/
def decOptStr : Json → Option (Option String)
  | Json.null => Option.some Option.none
  | Json.str s => Option.some (Option.some s)
  | _ => Option.none

/-- JsonStringEnumConverter: name of an ElementMeaning member. -/
def meaningToStr : ElementMeaning → String
  | ElementMeaning.none => "None"
  | ElementMeaning.control => "Control"
  | ElementMeaning.navBar => "NavBar"
  | ElementMeaning.toolbar => "Toolbar"
  | ElementMeaning.body => "Body"
  | ElementMeaning.panel => "Panel"
  | ElementMeaning.footer => "Footer"
  | ElementMeaning.view => "View"
  | ElementMeaning.imagePlaceholder => "ImagePlaceholder"

/-- JsonStringEnumConverter: parse an ElementMeaning member name. -/
def strToMeaning : String → Option ElementMeaning
  | "None" => Option.some ElementMeaning.none
  | "Control" => Option.some ElementMeaning.control
  | "NavBar" => Option.some ElementMeaning.navBar
  | "Toolbar" => Option.some ElementMeaning.toolbar
  | "Body" => Option.some ElementMeaning.body
  | "Panel" => Option.some ElementMeaning.panel
  | "Footer" => Option.some ElementMeaning.footer
  | "View" => Option.some ElementMeaning.view
  | "ImagePlaceholder" => Option.some ElementMeaning.imagePlaceholder
  | _ => Option.none

/-- JsonStringEnumConverter: name of a TextType member. -/
def textTypeToStr : TextType → String
  | TextType.paragraph => "Paragraph"
  | TextType.h1 => "H1"
  | TextType.h2 => "H2"
  | TextType.h3 => "H3"
  | TextType.h4 => "H4"
  | TextType.h5 => "H5"
  | TextType.link => "Link"

/-- JsonStringEnumConverter: parse a TextType member name. -/
def strToTextType : String → Option TextType
  | "Paragraph" => Option.some TextType.paragraph
  | "H1" => Option.some TextType.h1
  | "H2" => Option.some TextType.h2
  | "H3" => Option.some TextType.h3
  | "H4" => Option.some TextType.h4
  | "H5" => Option.some TextType.h5
  | "Link" => Option.some TextType.link
  | _ => Option.none

/-- Serialize the nullable `Meaning` enum. -/
def encOptMeaning : Option ElementMeaning → Json
  | Option.none => Json.null
  | Option.some m => Json.str (meaningToStr m)

/-- Deserialize the nullable `Meaning` enum. -/
def decOptMeaning : Json → Option (Option ElementMeaning)
  | Json.null => Option.some Option.none
  | Json.str s => (strToMeaning s).map Option.some
  | _ => Option.none

/-- A numeric property: absent keys keep the C# property initializer's
default, present keys must hold a number. -/
def fieldNum (fs : List (String × Json)) (key : String) (dflt : ℚ) : Option ℚ :=
  match lookupField fs key with
  | Option.none => Option.some dflt
  | Option.some v => asNum v

/-- A non-nullable string property with its initializer default. -/
def fieldStr (fs : List (String × Json)) (key : String) (dflt : String) :
    Option String :=
  match lookupField fs key with
  | Option.none => Option.some dflt
  | Option.some v => asStr v

/-- A boolean property with its initializer default. -/
def fieldBool (fs : List (String × Json)) (key : String) (dflt : Bool) : Option Bool :=
  match lookupField fs key with
  | Option.none => Option.some dflt
  | Option.some v => asBool v

/-- A nullable string property (absent and null both give null). -/
def fieldOptStr (fs : List (String × Json)) (key : String) : Option (Option String) :=
  match lookupField fs key with
  | Option.none => Option.some Option.none
  | Option.some v => decOptStr v

/-- The nullable `meaning` property. -/
def fieldOptMeaning (fs : List (String × Json)) : Option (Option ElementMeaning) :=
  match lookupField fs "meaning" with
  | Option.none => Option.some Option.none
  | Option.some v => decOptMeaning v

/-- The `textType` property with its `Paragraph` default. -/
def fieldTextType (fs : List (String × Json)) : Option TextType :=
  match lookupField fs "textType" with
  | Option.none => Option.some TextType.paragraph
  | Option.some v =>
      match v with
      | Json.str s => strToTextType s
      | _ => Option.none

/-- The `$type` discriminator value of each DesignElement subclass. -/
def typeTag : ElementShape → String
  | ElementShape.rect _ => "rectangle"
  | ElementShape.circle _ => "circle"
  | ElementShape.line _ => "line"
  | ElementShape.text _ => "text"
  | ElementShape.image _ => "image"

/-- Serialized base-class properties.  `backgroundColor`, `borderColor` and
`isSelected` carry `[JsonIgnore]` and are not written. -/
def baseFieldsJson (b : ElementBase) : List (String × Json) :=
  [("id", Json.str b.id), ("x", Json.num b.x), ("y", Json.num b.y),
   ("rotation", Json.num b.rotation), ("name", encOptStr b.name),
   ("description", encOptStr b.description), ("meaning", encOptMeaning b.meaning),
   ("parent", encOptStr b.parent)]

/-- Serialized variant-specific properties. -/
def shapeFieldsJson : ElementShape → List (String × Json)
  | ElementShape.rect f =>
      [("width", Json.num f.width), ("height", Json.num f.height),
       ("fill", Json.str f.fill), ("stroke", Json.str f.stroke),
       ("strokeWidth", Json.num f.strokeWidth), ("cornerRadius", Json.num f.cornerRadius)]
  | ElementShape.circle f =>
      [("radius", Json.num f.radius), ("fill", Json.str f.fill),
       ("stroke", Json.str f.stroke), ("strokeWidth", Json.num f.strokeWidth)]
  | ElementShape.line f =>
      [("x2", Json.num f.x2), ("y2", Json.num f.y2), ("stroke", Json.str f.stroke),
       ("strokeWidth", Json.num f.strokeWidth),
       ("strokeDashArray", encOptStr f.strokeDashArray)]
  | ElementShape.text f =>
      [("content", Json.str f.content), ("fontSize", Json.num f.fontSize),
       ("fontFamily", Json.str f.fontFamily), ("fill", Json.str f.fill),
       ("fontWeight", Json.str f.fontWeight),
       ("textType", Json.str (textTypeToStr f.textType)),
       ("linkUrl", encOptStr f.linkUrl)]
  | ElementShape.image f =>
      [("source", Json.str f.source), ("width", Json.num f.width),
       ("height", Json.num f.height), ("originalWidth", Json.num f.originalWidth),
       ("originalHeight", Json.num f.originalHeight),
       ("preserveAspectRatio", Json.bool f.preserveAspectRatio)]

/-- Serialize one element: the `$type` discriminator first, then the base
properties, the variant properties, and the read-only computed
`elementType` (serialized but ignored when reading back). -/
def toJsonElement (e : DesignElement) : Json :=
  Json.obj ((("$type", Json.str (typeTag e.shape)) :: baseFieldsJson e.base) ++
    shapeFieldsJson e.shape ++ [("elementType", Json.str (typeTag e.shape))])

/-- Deserialize the base-class properties.  A missing `id` is rejected here;
the C# initializer would mint a fresh GUID for it, a nondeterministic
behaviour outside this deterministic embedding and never exercised by
round-trips, which always carry the id. -/
def parseBase (fs : List (String × Json)) : Option ElementBase := do
  let id ← (lookupField fs "id").bind asStr
  let x ← fieldNum fs "x" 0
  let y ← fieldNum fs "y" 0
  let rotation ← fieldNum fs "rotation" 0
  let name ← fieldOptStr fs "name"
  let description ← fieldOptStr fs "description"
  let meaning ← fieldOptMeaning fs
  let parent ← fieldOptStr fs "parent"
  pure { id := id, x := x, y := y, rotation := rotation, name := name,
         description := description, meaning := meaning, parent := parent }

/-- Deserialize KRectangle's variant properties. -/
def parseRect (fs : List (String × Json)) : Option ElementShape := do
  let width ← fieldNum fs "width" 100
  let height ← fieldNum fs "height" 60
  let fill ← fieldStr fs "fill" "#4a90d9"
  let stroke ← fieldStr fs "stroke" "#2d5a87"
  let strokeWidth ← fieldNum fs "strokeWidth" 2
  let cornerRadius ← fieldNum fs "cornerRadius" 0
  pure (ElementShape.rect
    { width := width, height := height, fill := fill, stroke := stroke,
      strokeWidth := strokeWidth, cornerRadius := cornerRadius })

/-- Deserialize KCircle's variant properties. -/
def parseCircle (fs : List (String × Json)) : Option ElementShape := do
  let radius ← fieldNum fs "radius" 50
  let fill ← fieldStr fs "fill" "#5cb85c"
  let stroke ← fieldStr fs "stroke" "#3d8b3d"
  let strokeWidth ← fieldNum fs "strokeWidth" 2
  pure (ElementShape.circle
    { radius := radius, fill := fill, stroke := stroke,
      strokeWidth := strokeWidth })

/-- Deserialize KLine's variant properties. -/
def parseLine (fs : List (String × Json)) : Option ElementShape := do
  let x2 ← fieldNum fs "x2" 100
  let y2 ← fieldNum fs "y2" 100
  let stroke ← fieldStr fs "stroke" "#f0ad4e"
  let strokeWidth ← fieldNum fs "strokeWidth" 3
  let strokeDashArray ← fieldOptStr fs "strokeDashArray"
  pure (ElementShape.line
    { x2 := x2, y2 := y2, stroke := stroke, strokeWidth := strokeWidth,
      strokeDashArray := strokeDashArray })

/-- Deserialize KText's variant properties. -/
def parseText (fs : List (String × Json)) : Option ElementShape := do
  let content ← fieldStr fs "content" "Text"
  let fontSize ← fieldNum fs "fontSize" 16
  let fontFamily ← fieldStr fs "fontFamily" "Arial, sans-serif"
  let fill ← fieldStr fs "fill" "#e0e0e0"
  let fontWeight ← fieldStr fs "fontWeight" "normal"
  let textType ← fieldTextType fs
  let linkUrl ← fieldOptStr fs "linkUrl"
  pure (ElementShape.text
    { content := content, fontSize := fontSize, fontFamily := fontFamily,
      fill := fill, fontWeight := fontWeight, textType := textType,
      linkUrl := linkUrl })

/-- Deserialize KImage's variant properties. -/
def parseImage (fs : List (String × Json)) : Option ElementShape := do
  let source ← fieldStr fs "source" ""
  let width ← fieldNum fs "width" 100
  let height ← fieldNum fs "height" 100
  let originalWidth ← fieldNum fs "originalWidth" 0
  let originalHeight ← fieldNum fs "originalHeight" 0
  let preserveAspectRatio ← fieldBool fs "preserveAspectRatio" true
  pure (ElementShape.image
    { source := source, width := width, height := height,
      originalWidth := originalWidth, originalHeight := originalHeight,
      preserveAspectRatio := preserveAspectRatio })

/-- Deserialize one element, dispatching on the `$type` discriminator. -/
def fromJsonElement (j : Json) : Option DesignElement :=
  match j with
  | Json.obj fs =>
      match lookupField fs "$type" with
      | Option.some (Json.str "rectangle") => do
          let b ← parseBase fs
          let sh ← parseRect fs
          pure { base := b, shape := sh }
      | Option.some (Json.str "circle") => do
          let b ← parseBase fs
          let sh ← parseCircle fs
          pure { base := b, shape := sh }
      | Option.some (Json.str "line") => do
          let b ← parseBase fs
          let sh ← parseLine fs
          pure { base := b, shape := sh }
      | Option.some (Json.str "text") => do
          let b ← parseBase fs
          let sh ← parseText fs
          pure { base := b, shape := sh }
      | Option.some (Json.str "image") => do
          let b ← parseBase fs
          let sh ← parseImage fs
          pure { base := b, shape := sh }
      | _ => Option.none
  | _ => Option.none

/-- Serialize a document with the repository's serializer options. -/
def toJsonDocument (d : DesignDocument) : Json :=
  Json.obj [("title", Json.str d.title), ("description", encOptStr d.description),
    ("canvasWidth", Json.num d.canvasWidth), ("canvasHeight", Json.num d.canvasHeight),
    ("backgroundColor", Json.str d.backgroundColor),
    ("elements", Json.arr (d.elements.map toJsonElement)),
    ("prompt", encOptStr d.prompt), ("aiContext", encOptStr d.aiContext),
    ("createdAt", Json.str d.createdAt), ("modifiedAt", Json.str d.modifiedAt)]

/-- Deserialize the element array: every entry must deserialize, in
order. -/
def decodeElements : List Json → Option (List DesignElement)
  | [] => Option.some []
  | j :: rest => do
      let e ← fromJsonElement j
      let es ← decodeElements rest
      pure (e :: es)

/-- Deserialize a document.  Missing timestamps take the initializer's
current-time default, modelled by the empty string. -/
def fromJsonDocument (j : Json) : Option DesignDocument :=
  match j with
  | Json.obj fs => do
      let title ← fieldStr fs "title" "Untitled Design"
      let description ← fieldOptStr fs "description"
      let canvasWidth ← fieldNum fs "canvasWidth" 800
      let canvasHeight ← fieldNum fs "canvasHeight" 600
      let backgroundColor ← fieldStr fs "backgroundColor" "#1e1e1e"
      let elements ←
        match lookupField fs "elements" with
        | Option.none => Option.some []
        | Option.some (Json.arr xs) => decodeElements xs
        | Option.some _ => Option.none
      let prompt ← fieldOptStr fs "prompt"
      let aiContext ← fieldOptStr fs "aiContext"
      let createdAt ← fieldStr fs "createdAt" ""
      let modifiedAt ← fieldStr fs "modifiedAt" ""
      pure { title := title, description := description, canvasWidth := canvasWidth,
             canvasHeight := canvasHeight, backgroundColor := backgroundColor,
             elements := elements, prompt := prompt, aiContext := aiContext,
             createdAt := createdAt, modifiedAt := modifiedAt }
  | _ => Option.none

/-- An element with all `[JsonIgnore]` fields reset to their defaults: the
transient `isSelected` flag and the display-only `backgroundColor` and
`borderColor`. -/
def clearTransientElem (e : DesignElement) : DesignElement :=
  { e with
    base :=
      { e.base with
        isSelected := false, backgroundColor := Option.none,
        borderColor := Option.none } }

/-- A document with every element's `[JsonIgnore]` fields reset. -/
def clearTransient (d : DesignDocument) : DesignDocument :=
  { d with elements := d.elements.map clearTransientElem }

/-! ## Round-trip of the JSON serialization -/

theorem decOptStr_encOptStr (o : Option String) :
    decOptStr (encOptStr o) = Option.some o := by
  cases o <;> rfl

theorem strToMeaning_meaningToStr (m : ElementMeaning) :
    strToMeaning (meaningToStr m) = Option.some m := by
  cases m <;> rfl

theorem decOptMeaning_encOptMeaning (o : Option ElementMeaning) :
    decOptMeaning (encOptMeaning o) = Option.some o := by
  cases o with
  | none => rfl
  | some m => simp [encOptMeaning, decOptMeaning, strToMeaning_meaningToStr]

theorem strToTextType_textTypeToStr (tt : TextType) :
    strToTextType (textTypeToStr tt) = Option.some tt := by
  cases tt <;> rfl

theorem fromJson_toJson_element (e : DesignElement) :
    fromJsonElement (toJsonElement e) = Option.some (clearTransientElem e) := by
  obtain ⟨b, sh⟩ := e
  cases sh <;>
    simp [fromJsonElement, toJsonElement, baseFieldsJson, shapeFieldsJson, typeTag,
      lookupField, parseBase, parseRect, parseCircle, parseLine, parseText, parseImage,
      fieldNum, fieldStr, fieldBool, fieldOptStr, fieldOptMeaning, fieldTextType,
      asStr, asNum, asBool, decOptStr_encOptStr, decOptMeaning_encOptMeaning,
      strToTextType_textTypeToStr, clearTransientElem]

theorem decodeElements_map_toJson (es : List DesignElement) :
    decodeElements (es.map toJsonElement) =
      Option.some (es.map clearTransientElem) := by
  induction es with
  | nil => rfl
  | cons e es ih => simp [decodeElements, fromJson_toJson_element, ih]

/-- Claim C2 (amended): deserializing the serialization of any document
reproduces every persisted field — title, canvas size, background color,
timestamps, prompt, description, AI context, and for each element its
variant tag, geometry, style, name, description, meaning, and parent —
while the `[JsonIgnore]` element fields are reset to their defaults: the
transient `isSelected` flag and also the display-only `backgroundColor` and
`borderColor`. -/
theorem fromJson_toJson_document (d : DesignDocument) :
    fromJsonDocument (toJsonDocument d) = Option.some (clearTransient d) := by
  simp [fromJsonDocument, toJsonDocument, lookupField, fieldStr, fieldNum, fieldOptStr,
    asStr, asNum, decOptStr_encOptStr, decodeElements_map_toJson, clearTransient]

/-- Counterexample to claim C2 as stated: the round trip loses more than
`isSelected` — an element's display-only `backgroundColor` (also marked
`[JsonIgnore]` in the source) does not survive either, so
`fromJson (toJson D)` is not `D` for a document whose element carries one. -/
theorem fromJson_toJson_not_identity :
    fromJsonDocument (toJsonDocument
      { elements :=
          [{ base := { id := "e", backgroundColor := Option.some "red" },
             shape := ElementShape.rect {} }] }) ≠
    Option.some
      ({ elements :=
          [{ base := { id := "e", backgroundColor := Option.some "red" },
             shape := ElementShape.rect {} }] } : DesignDocument) := by
  decide

/-! ## LoadDesign (DesignService.LoadDesign)

The JSON text handed over from JavaScript is modelled by `Option Json`:
`Option.none` stands for text that is not valid JSON at all — in C# the
deserializer throws and the surrounding catch block merely logs.  On a JSON
value that does not deserialize to a document (`fromJsonDocument` fails,
covering both a thrown conversion error and a null result) the current
document is likewise kept. -/

/-- LoadDesign: replace the document only when deserialization succeeds with
a non-null document, then deselect and bump ModifiedAt; on any failure the
state is untouched (the exception is caught and only logged). -/
def loadDesign (input : Option Json) (now : String) (s : ServiceState) : ServiceState :=
  match input.bind fromJsonDocument with
  | Option.some doc =>
      { s with document := { doc with modifiedAt := now },
               selectedIdx := Option.none }
  | Option.none => s

/-- Claim C5: for every current state and every input that is not valid
document JSON (unparsable text, a JSON value that is not a document, or a
null document), `loadDesign` returns normally — it is a total function, so
no exception escapes the boundary — and leaves the entire service state,
in particular the current document with its title and elements, unchanged. -/
theorem loadDesign_invalid_input_preserves_state
    (input : Option Json) (now : String) (s : ServiceState)
    (h : input.bind fromJsonDocument = Option.none) :
    loadDesign input now s = s ∧
    (loadDesign input now s).document = s.document := by
  constructor <;> simp [loadDesign, h]

/-- Witness for claim C5: a JSON string literal is not a document. -/
theorem loadDesign_invalid_input_preserves_state_witness :
    loadDesign (Option.some (Json.str "not a design document")) "t1"
        { document := { title := "Keep me" } } =
      { document := { title := "Keep me" } } ∧
    (loadDesign (Option.some (Json.str "not a design document")) "t1"
        { document := { title := "Keep me" } }).document =
      ({ document := { title := "Keep me" } } : ServiceState).document :=
  loadDesign_invalid_input_preserves_state
    (Option.some (Json.str "not a design document")) "t1"
    { document := { title := "Keep me" } } rfl

/-! ## Navigation does not touch persisted content (claim C8)

The view-navigation operations do alter two things besides the context,
breadcrumb and selection: clearing the selection resets the previously
selected element's transient `isSelected` flag, and `NotifyStateChanged`
bumps `ModifiedAt`.  Everything persisted about the elements is preserved,
and both exports are computed from the whole element list, independent of
the view context. -/

/-- A document quotiented by exactly what navigation may touch: `modifiedAt`
is blanked and each element's transient selection flag is cleared. -/
def docUpToSel (d : DesignDocument) : DesignDocument :=
  { d with modifiedAt := "", elements := d.elements.map clearSel }

theorem docUpToSel_stamp (d : DesignDocument) (now : String) :
    docUpToSel { d with modifiedAt := now } = docUpToSel d := rfl

theorem selectNone_docUpToSel (s : ServiceState) :
    docUpToSel (selectNone s).document = docUpToSel s.document := by
  cases h : s.selectedIdx <;>
    simp [selectNone, h, docUpToSel, deselectAt_map_clearSel]

theorem genElementSvg_clearSel (e : DesignElement) :
    genElementSvg (clearSel e) = genElementSvg e := by
  obtain ⟨b, sh⟩ := e
  cases sh <;> rfl

theorem elementLine_clearSel (e : DesignElement) :
    elementLine (clearSel e) = elementLine e := by
  simp [elementLine, genElementSvg_clearSel]

theorem toJsonElement_clearSel (e : DesignElement) :
    toJsonElement (clearSel e) = toJsonElement e := by
  obtain ⟨b, sh⟩ := e
  cases sh <;> rfl

theorem map_eq_of_clearSel_eq {α : Type} (f : DesignElement → α)
    (hf : ∀ e, f (clearSel e) = f e) {es1 es2 : List DesignElement}
    (h : es1.map clearSel = es2.map clearSel) : es1.map f = es2.map f := by
  have h1 : ∀ es : List DesignElement, es.map f = (es.map clearSel).map f := by
    intro es
    rw [List.map_map]
    exact (List.map_congr_left fun a _ => hf a).symm
  rw [h1 es1, h1 es2, h]

theorem generateSvg_eq_of_docUpToSel_eq {d1 d2 : DesignDocument}
    (h : docUpToSel d1 = docUpToSel d2) : generateSvg d1 = generateSvg d2 := by
  have hw := congrArg DesignDocument.canvasWidth h
  have hh := congrArg DesignDocument.canvasHeight h
  have hbg := congrArg DesignDocument.backgroundColor h
  have hel := congrArg DesignDocument.elements h
  simp [docUpToSel] at hw hh hbg hel
  unfold generateSvg
  rw [hw, hh, hbg, map_eq_of_clearSel_eq elementLine elementLine_clearSel hel]

/-- What navigation preserves: the document up to `modifiedAt` and the
transient selection flags (hence every element with all its persisted
fields, in order), the generated SVG, and the serialized element array. -/
def navPreserves (t s : ServiceState) : Prop :=
  docUpToSel t.document = docUpToSel s.document ∧
  generateSvg t.document = generateSvg s.document ∧
  t.document.elements.map toJsonElement = s.document.elements.map toJsonElement

theorem navPreserves_of_docUpToSel {t s : ServiceState}
    (h : docUpToSel t.document = docUpToSel s.document) : navPreserves t s := by
  refine ⟨h, generateSvg_eq_of_docUpToSel_eq h, ?_⟩
  have hel := congrArg DesignDocument.elements h
  simp [docUpToSel] at hel
  exact map_eq_of_clearSel_eq toJsonElement toJsonElement_clearSel hel

theorem enterView_docUpToSel (v now : String) (s : ServiceState) :
    docUpToSel (enterView v now s).document = docUpToSel s.document := by
  unfold enterView
  cases hf : s.document.elements.find?
      (fun e => e.base.name == Option.some v &&
                e.base.meaning == Option.some ElementMeaning.view) with
  | none => rfl
  | some w =>
      simp only []
      rw [docUpToSel_stamp]
      exact selectNone_docUpToSel _

theorem exitToParentView_docUpToSel (now : String) (s : ServiceState) :
    docUpToSel (exitToParentView now s).document = docUpToSel s.document := by
  unfold exitToParentView
  cases hl : s.viewBreadcrumb.getLast? with
  | none =>
      simp only []
      rw [docUpToSel_stamp]
      exact selectNone_docUpToSel _
  | some c =>
      simp only []
      rw [docUpToSel_stamp]
      exact selectNone_docUpToSel _

theorem exitToRoot_docUpToSel (now : String) (s : ServiceState) :
    docUpToSel (exitToRoot now s).document = docUpToSel s.document := by
  unfold exitToRoot
  rw [docUpToSel_stamp]
  exact selectNone_docUpToSel _

/-- Claim C8 (amended): `enterView`, `exitToParentView` and `exitToRoot`
never add, remove or reorder elements and leave every persisted element
field unchanged — only the view context, the breadcrumb, the selection
(including the previously selected element's transient `isSelected` flag)
and the document's `modifiedAt` stamp change — and both the generated SVG
and the serialized element array, which are computed from the full element
list regardless of the view context, are identical before and after. -/
theorem navigation_preserves_elements (s : ServiceState) (v now : String) :
    navPreserves (enterView v now s) s ∧
    navPreserves (exitToParentView now s) s ∧
    navPreserves (exitToRoot now s) s :=
  ⟨navPreserves_of_docUpToSel (enterView_docUpToSel v now s),
   navPreserves_of_docUpToSel (exitToParentView_docUpToSel now s),
   navPreserves_of_docUpToSel (exitToRoot_docUpToSel now s)⟩

/-- Counterexample to claim C8 as stated: entering a view with an element
selected clears that element's `isSelected` field and bumps the document's
`modifiedAt`, so "element fields and the elements collection are unchanged"
and "they only change currentViewContext, the breadcrumb, and the
selection" both fail literally. -/
theorem navigation_mutates_selection_flag :
    (enterView "V" "t1"
        { document :=
            { elements :=
                [{ base := { id := "v", name := Option.some "V",
                             meaning := Option.some ElementMeaning.view,
                             isSelected := true },
                   shape := ElementShape.rect {} }],
              modifiedAt := "t0" },
          selectedIdx := Option.some 0 }).document.elements ≠
      [{ base := { id := "v", name := Option.some "V",
                   meaning := Option.some ElementMeaning.view,
                   isSelected := true },
         shape := ElementShape.rect {} }] ∧
    (enterView "V" "t1"
        { document :=
            { elements :=
                [{ base := { id := "v", name := Option.some "V",
                             meaning := Option.some ElementMeaning.view,
                             isSelected := true },
                   shape := ElementShape.rect {} }],
              modifiedAt := "t0" },
          selectedIdx := Option.some 0 }).document.modifiedAt ≠ "t0" := by
  constructor <;> decide
